import Mathlib

/-!
Shallow embedding of the two MCP "PR agent" servers of this repository:

* `Basic`   — `projects/unit3/build-mcp-server/starter/server.py`
* `Actions` — `projects/unit3/github-actions-integration/starter/server.py`

Each tool returns a JSON-encoded string in the source; we model the value
that is passed to `json.dumps` as a `JVal`.  Subprocess calls and file
reads are the only effects, so every tool is embedded as a pure function
of an explicit environment describing what those effects would return.
A Python function that can raise to its caller is embedded with result
type `Except String JVal` (the `error` case is an escaped exception); a
function whose body is wrapped in a catch-all `try/except` always
produces a `JVal`.
-/

/-- JSON-like values (the image of `json.dumps` arguments). -/
inductive JVal where
  | str (s : String)
  | num (n : Nat)
  | bool (b : Bool)
  | arr (xs : List JVal)
  | obj (fields : List (String × JVal))
  | null

/-- Key lookup in a JSON object (keys are unique in every object the
servers build, so first-binding lookup is exact). -/
def JVal.lookup : JVal → String → Option JVal
  | .obj fields, k => (fields.find? fun p => p.1 == k).map (·.2)
  | _, _ => none

/-- Python whitespace test used by `str.strip` (the ASCII cases). -/
def isPySpace (c : Char) : Bool :=
  c == ' ' || c == '\t' || c == '\n' || c == '\r' || c == '\x0b' || c == '\x0c'

/-- Python's `str.strip()`: drop leading and trailing whitespace.
Structurally recursive equivalent of `String.trim`, kept
kernel-reducible. -/
def pyStrip (s : String) : String :=
  ⟨((s.data.dropWhile isPySpace).reverse.dropWhile isPySpace).reverse⟩

/-- Python's `str.lower()` (the ASCII cases).  Structurally recursive
equivalent of `String.toLower`. -/
def pyLower (s : String) : String :=
  ⟨s.data.map Char.toLower⟩

/-- Split a character list at every occurrence of `sep`. -/
def splitOnChar (sep : Char) : List Char → List (List Char)
  | [] => [[]]
  | c :: rest =>
    if c == sep then [] :: splitOnChar sep rest
    else
      match splitOnChar sep rest with
      | h :: t => (c :: h) :: t
      | [] => [[c]]

/-- Python's `str.split(sep)` for a one-character separator (on an empty
string it yields one empty piece, like Python).  Structurally recursive
equivalent of `String.splitOn`. -/
def pySplit (sep : Char) (s : String) : List String :=
  (splitOnChar sep s.data).map fun l => ⟨l⟩

/-- Python's `needle in hay` on strings: substring test. -/
def isSubstr (needle hay : String) : Bool :=
  hay.data.tails.any fun t => needle.data.isPrefixOf t

/-- Does some top-level string field of a (flat) JSON object contain
`needle` as a substring? -/
def objHasStrContaining (j : JVal) (needle : String) : Bool :=
  match j with
  | .obj fields =>
    fields.any fun p =>
      match p.2 with
      | .str s => isSubstr needle s
      | _ => false
  | _ => false

/-- Unwrap an `Except`-returning tool result and look a key up in it;
`none` when the call raised or the key is absent. -/
def okLookup (e : Except String JVal) (k : String) : Option JVal :=
  match e with
  | .ok r => r.lookup k
  | .error _ => none

/-- Result of `subprocess.run(..., capture_output=True, text=True)`. -/
structure SubpRes where
  returncode : Int
  stdout : String
  stderr : String

namespace Basic

/-- The two git invocations `analyze_file_changes` makes (lines 33-38 and
67-72 of the basic server): `git diff --name-status <base>` and
`git diff <base>`. -/
structure GitEnv where
  nameStatus : SubpRes
  fullDiff : SubpRes

/-- Lines 47-58: parse `git diff --name-status` output.  Each line of the
stripped stdout is split on tabs; lines with fewer than two fields (and
empty lines) are skipped. -/
def parseChangedFiles (out : String) : List (String × String) :=
  (pySplit '\n' (pyStrip out)).filterMap fun line =>
    if line = "" then none
    else
      match pySplit '\t' line with
      | status :: filename :: _ => some (status, filename)
      | _ => none

/-- Line 78: the fixed character budget (approximately 5,000 tokens). -/
def max_diff_chars : Nat := 20000

/-- Lines 81-88: accumulate whole lines while the running character count
(each line costing its length plus one for the newline) stays within the
budget; stop before the first line that would exceed it. -/
def takeLinesWithin (budget : Nat) : List String → Nat → List String
  | [], _ => []
  | line :: rest, char_count =>
    if budget < char_count + line.length + 1 then []
    else line :: takeLinesWithin budget rest (char_count + line.length + 1)

/-- Lines 77-95: the character-budget truncation policy.  Returns the
`diff` content, the `diff_truncated` flag, and `original_diff_size`
(which the source reports only when truncation occurred). -/
def truncateDiff (diff_content : String) : String × Bool × Option Nat :=
  if max_diff_chars < diff_content.length then
    (String.intercalate "\n"
        (takeLinesWithin max_diff_chars (pySplit '\n' diff_content) 0),
     true, some diff_content.length)
  else
    (diff_content, false, none)

/-- Lines 18-109: `analyze_file_changes(base_branch, include_diff)`.  The
two subprocess results are supplied by `env`; the MCP-context lookup only
chooses the working directory and is abstracted away.  The catch-all
`except` of lines 104-109 is unreachable in this model because the
environment always yields captured subprocess results. -/
def analyze_file_changes (env : GitEnv) (include_diff : Bool) : JVal :=
  if env.nameStatus.returncode ≠ 0 then
    .obj [("error", .str ("Git command failed: " ++ env.nameStatus.stderr)),
          ("files_changed", .arr []),
          ("diff", .str "")]
  else
    let files_changed := parseChangedFiles env.nameStatus.stdout
    let base : List (String × JVal) :=
      [("files_changed", .arr (files_changed.map fun p =>
          .obj [("status", .str p.1), ("filename", .str p.2)])),
       ("total_files", .num files_changed.length)]
    if include_diff && !files_changed.isEmpty then
      if env.fullDiff.returncode = 0 then
        .obj (base ++ [("diff", .str (truncateDiff env.fullDiff.stdout).1),
                       ("diff_truncated", .bool (truncateDiff env.fullDiff.stdout).2.1)] ++
              (match (truncateDiff env.fullDiff.stdout).2.2 with
               | some n => [("original_diff_size", .num n)]
               | none => []))
      else
        .obj (base ++ [("diff", .str ""),
                       ("diff_error", .str env.fullDiff.stderr)])
    else
      .obj (base ++ [("diff", .str "")])

/-- Outcome of opening and reading one file inside the template loop. -/
inductive FileRes where
  | content (text : String)
  | failure (msg : String)

/-- The template directory as `get_pr_templates` sees it: whether
`TEMPLATES_DIR.exists()`, and the `*.md` files in `glob` enumeration
order, each with its stem and the outcome of reading it. -/
structure TemplatesDir where
  dirExists : Bool
  mdFiles : List (String × FileRes)

/-- Lines 126-148: build one listing entry; a file that fails to read
still contributes an entry, with an inline `error` instead of content. -/
def templateEntry (stem : String) (res : FileRes) : JVal :=
  match res with
  | .content c =>
    .obj [("filename", .str (stem ++ ".md")), ("name", .str stem),
          ("type", .str stem), ("content", .str c)]
  | .failure e =>
    .obj [("filename", .str (stem ++ ".md")), ("name", .str stem),
          ("type", .str stem), ("error", .str ("Failed to read template: " ++ e))]

/-- The sort key of line 151: the name field, defaulting to empty. -/
def entryName (j : JVal) : String :=
  match j.lookup "name" with
  | some (.str s) => s
  | _ => ""

/-- The Boolean name comparison that drives the sort of line 151. -/
def entryLe (a b : JVal) : Bool :=
  decide (entryName a ≤ entryName b)

/-- Lines 112-159: `get_pr_templates`.  A missing directory degrades to an
`error` plus an empty list; otherwise entries are built in enumeration
order and then sorted by name (`list.sort` is modelled by the stable
`mergeSort`). -/
def get_pr_templates (dir : TemplatesDir) : JVal :=
  if !dir.dirExists then
    .obj [("error", .str "Templates directory not found: TEMPLATES_DIR"),
          ("templates", .arr [])]
  else
    .arr ((dir.mdFiles.map fun p => templateEntry p.1 p.2).mergeSort entryLe)

/-- Lines 172-192: the change-type → template-file mapping, kept in
declaration order (Python dicts iterate in insertion order). -/
def template_mappings : List (String × String) :=
  [("bug", "bug.md"), ("bugfix", "bug.md"), ("fix", "bug.md"),
   ("feature", "feature.md"), ("feat", "feature.md"),
   ("enhancement", "feature.md"),
   ("docs", "docs.md"), ("documentation", "docs.md"), ("doc", "docs.md"),
   ("refactor", "refactor.md"), ("refactoring", "refactor.md"),
   ("test", "test.md"), ("tests", "test.md"), ("testing", "test.md"),
   ("performance", "performance.md"), ("perf", "performance.md"),
   ("optimization", "performance.md"),
   ("security", "security.md"), ("sec", "security.md")]

/-- Line 195: `change_type.lower().strip()`. -/
def normalizeType (change_type : String) : String :=
  pyStrip (pyLower change_type)

/-- Line 203's test: `key in normalized_type or normalized_type in key`. -/
def substringMatch (normalized_type key : String) : Bool :=
  isSubstr key normalized_type || isSubstr normalized_type key

/-- Lines 194-212: choose the template file and the fallback flag — exact
lookup first, then the first substring match in declaration order, then
the `feature.md` default with `fallback_used = True`. -/
def resolveTemplate (change_type : String) : String × Bool :=
  let normalized_type := normalizeType change_type
  match (template_mappings.find? fun p => p.1 == normalized_type).map (·.2) with
  | some f => (f, false)
  | none =>
    match (template_mappings.find? fun p =>
             substringMatch normalized_type p.1).map (·.2) with
    | some f => (f, false)
    | none => ("feature.md", true)

/-- State of the chosen template file on disk: `template_path.exists()`
plus the outcome of `open(...).read()`. -/
inductive TemplateFile where
  | absent
  | readable (text : String)
  | unreadable (msg : String)

/-- Strip the `.md` extension (`template_path.stem` for these names). -/
def mdStem (filename : String) : String :=
  ⟨filename.data.take (filename.data.length - 3)⟩

/-- Lines 162-254: `suggest_template(changes_summary, change_type)`; `fs`
gives each candidate filename's state on disk.  The source wraps the
detected type in single quotes inside `note`; the quotes are elided
here. -/
def suggest_template (fs : String → TemplateFile)
    (changes_summary change_type : String) : JVal :=
  match resolveTemplate change_type with
  | (suggested_template_file, fallback_used) =>
    match fs suggested_template_file with
    | .readable template_content =>
      .obj ([("recommended_template", .str suggested_template_file),
             ("template_type", .str (mdStem suggested_template_file)),
             ("template_content", .str template_content),
             ("changes_summary", .str changes_summary),
             ("detected_change_type", .str change_type),
             ("fallback_used", .bool fallback_used)] ++
            (if fallback_used then
               [("note", .str ("No specific template found for " ++ change_type ++
                               ", defaulting to feature template"))]
             else []))
    | .unreadable e =>
      .obj [("error", .str ("Failed to read template file " ++
                            suggested_template_file ++ ": " ++ e)),
            ("recommended_template", .str suggested_template_file),
            ("template_type", .str (mdStem suggested_template_file))]
    | .absent =>
      .obj [("error", .str ("Template file not found: " ++ suggested_template_file)),
            ("available_templates", .arr (template_mappings.map fun p => .str p.2)),
            ("detected_change_type", .str change_type)]

end Basic

namespace Actions

/-- Lines 23-31: the static template table, in declaration order. -/
def DEFAULT_TEMPLATES : List (String × String) :=
  [("bug.md", "Bug Fix"), ("feature.md", "Feature"), ("docs.md", "Documentation"),
   ("refactor.md", "Refactor"), ("test.md", "Test"),
   ("performance.md", "Performance"), ("security.md", "Security")]

/-- Lines 36-50: the change-type → template-file mapping, in declaration
order. -/
def TYPE_MAPPING : List (String × String) :=
  [("bug", "bug.md"), ("fix", "bug.md"),
   ("feature", "feature.md"), ("enhancement", "feature.md"),
   ("docs", "docs.md"), ("documentation", "docs.md"),
   ("refactor", "refactor.md"), ("cleanup", "refactor.md"),
   ("test", "test.md"), ("testing", "test.md"),
   ("performance", "performance.md"), ("optimization", "performance.md"),
   ("security", "security.md")]

/-- Python's `l[:k]` for an `int` bound `k`: a nonnegative bound keeps the
first `k` elements, a negative bound drops the last `-k`. -/
def pySlice {α : Type} (l : List α) (k : Int) : List α :=
  if 0 ≤ k then l.take k.toNat else l.take (l.length - (-k).toNat)

/-- The four git invocations of `analyze_file_changes` (lines 70-109):
name-status (run with `check=True`), stat, full diff, and log. -/
structure GitEnv where
  nameStatus : SubpRes
  stat : SubpRes
  fullDiff : SubpRes
  log : SubpRes

/-- Lines 98-99: the truncation marker appended to a cut-down diff. -/
def truncMarker (max_diff_lines : Int) (total_lines : Nat) : String :=
  "\n\n... Output truncated. Showing " ++ toString max_diff_lines ++
  " of " ++ toString total_lines ++ " lines ..." ++
  "\n... Use max_diff_lines parameter to see more ..."

/-- Lines 93-102: the line-count truncation policy of the extended
variant: keep the first `max_diff_lines` lines and append the marker when
the diff has more lines than that. -/
def truncateDiffLines (stdout : String) (max_diff_lines : Int) : String × Bool :=
  if max_diff_lines < ((pySplit '\n' stdout).length : Int) then
    (String.intercalate "\n" (pySlice (pySplit '\n' stdout) max_diff_lines) ++
       truncMarker max_diff_lines (pySplit '\n' stdout).length,
     true)
  else
    (stdout, false)

/-- Lines 55-126: the extended `analyze_file_changes`.  Only the
name-status call runs with `check=True`; its failure raises
`CalledProcessError`, which the handler of line 123 turns into an
error-only object.  The other subprocess results are used without any
exit-status check. -/
def analyze_file_changes (base_branch : String) (env : GitEnv)
    (include_diff : Bool) (max_diff_lines : Int) : JVal :=
  if env.nameStatus.returncode ≠ 0 then
    .obj [("error", .str ("Git error: " ++ env.nameStatus.stderr))]
  else
    let diff_lines := pySplit '\n' env.fullDiff.stdout
    let truncated :=
      include_diff && (truncateDiffLines env.fullDiff.stdout max_diff_lines).2
    let diff_content :=
      if include_diff then (truncateDiffLines env.fullDiff.stdout max_diff_lines).1
      else ""
    .obj [("base_branch", .str base_branch),
          ("files_changed", .str env.nameStatus.stdout),
          ("statistics", .str env.stat.stdout),
          ("commits", .str env.log.stdout),
          ("diff", .str (if include_diff then diff_content
                         else "Diff not included (set include_diff=true to see full diff)")),
          ("truncated", .bool truncated),
          ("total_diff_lines", .num (if include_diff then diff_lines.length else 0))]

/-- Lines 129-141: the extended `get_pr_templates`.  `read` models
`Path.read_text`, which raises (`Except.error`) when the file is missing
or unreadable; there is no handler, so the comprehension propagates the
first failure to the dispatcher. -/
def get_pr_templates (read : String → Except String String) : Except String JVal := do
  let templates ← DEFAULT_TEMPLATES.mapM fun p => do
    let text ← read p.1
    pure (JVal.obj [("filename", .str p.1), ("type", .str p.2),
                    ("content", .str text)])
  pure (.arr templates)

/-- Line 158: `TYPE_MAPPING.get(change_type.lower(), "feature.md")`. -/
def lookupType (change_type : String) : String :=
  ((TYPE_MAPPING.find? fun p => p.1 == pyLower change_type).map (·.2)).getD
    "feature.md"

/-- Extract the string content field of a template object (the source
indexes `selected_template["content"]`, which always exists here). -/
def contentOf (t : JVal) : String :=
  match t.lookup "content" with
  | some (.str c) => c
  | _ => ""

/-- Lines 144-171: the extended `suggest_template`.  It calls
`get_pr_templates` (so a failed template read propagates), picks the
mapped filename with `feature.md` as default, and selects the first
listed template with that filename, defaulting to the first template.
The source wraps the summary in single quotes inside `reasoning`; the
quotes are elided here.  No fallback indicator is produced. -/
def suggest_template (read : String → Except String String)
    (changes_summary change_type : String) : Except String JVal := do
  let templatesJson ← get_pr_templates read
  let templates := match templatesJson with | .arr l => l | _ => []
  let template_file := lookupType change_type
  let selected_template :=
    ((templates.find? fun t =>
        match t.lookup "filename" with
        | some (.str f) => f == template_file
        | _ => false).getD
      (templates.headD .null))
  pure (.obj [("recommended_template", selected_template),
              ("reasoning", .str ("Based on your analysis: " ++ changes_summary ++
                                  ", this appears to be a " ++ change_type ++ " change.")),
              ("template_content", .str (contentOf selected_template)),
              ("usage_hint", .str "Claude can help you fill out this template based on the specific changes in your PR.")])

/-- State of the events file as `get_recent_actions_events` (lines
176-208) sees it: missing, unparseable JSON, or a parsed JSON value. -/
inductive EventsFile where
  | missing
  | invalid (msg : String)
  | parsed (value : JVal)

/-- Lines 176-208: `get_recent_actions_events(limit)`.  A missing file
and a JSON parse failure degrade to structured results; a parsed value
that is not a list yields zero events; a list is sliced by `[:limit]`. -/
def get_recent_actions_events (file : EventsFile) (limit : Int) : JVal :=
  match file with
  | .missing => .obj [("events", .arr []), ("message", .str "No events file found")]
  | .invalid e => .obj [("error", .str ("Invalid JSON in events file: " ++ e))]
  | .parsed events =>
    let recent_events :=
      match events with
      | .arr l => pySlice l limit
      | _ => ([] : List JVal)
    .obj [("events", .arr recent_events),
          ("total_events", .num (match events with | .arr l => l.length | _ => 0)),
          ("showing", .num recent_events.length)]

end Actions

/-! Concrete fixtures used to instantiate the theorems below. -/

/-- Total cost of a line list under the character-budget policy: each
line costs its length plus one separating newline. -/
def sumPlus (l : List String) : Nat :=
  (l.map fun s => s.length + 1).sum

/-- Filenames, in listing order, of a template listing returned by the
extended variant. -/
def filenamesOf (e : Except String JVal) : List String :=
  match e with
  | .ok (.arr l) =>
    l.map fun t =>
      match t.lookup "filename" with
      | some (.str s) => s
      | _ => ""
  | _ => []

/-- Fixture: every template file reads successfully. -/
def fsOk : String → Except String String := fun _ => .ok "TPL"

/-- Fixture: every template read raises — the templates directory is
missing entirely. -/
def fsGone : String → Except String String :=
  fun f => .error ("FileNotFoundError: " ++ f)

/-- Fixture: every template file exists and is readable. -/
def tplOk : String → Basic.TemplateFile := fun _ => .readable "TPL"

/-- Fixture: the basic variant's templates directory does not exist. -/
def dirMissing : Basic.TemplatesDir := ⟨false, []⟩

/-- Fixture: an existing templates directory whose enumeration order is
not alphabetical, including one unreadable file. -/
def dirShuffled : Basic.TemplatesDir :=
  ⟨true, [("feature", .content "F"), ("bug", .content "B"), ("docs", .failure "oops")]⟩

/-- Fixture: one modified file and a small diff. -/
def envSmall : Basic.GitEnv :=
  { nameStatus := ⟨0, "M\tserver.py", ""⟩, fullDiff := ⟨0, "abc", ""⟩ }

/-- Fixture: the name-status query succeeds with empty output. -/
def envNoChanges : Basic.GitEnv :=
  { nameStatus := ⟨0, "", ""⟩, fullDiff := ⟨0, "x", "y"⟩ }

/-- Fixture: the full-diff subprocess of the basic variant fails. -/
def envDiffFail : Basic.GitEnv :=
  { nameStatus := ⟨0, "M\tserver.py", ""⟩,
    fullDiff := ⟨1, "", "fatal: bad revision"⟩ }

/-- Fixture: the full-diff subprocess of the extended variant fails. -/
def envDiffFailExt : Actions.GitEnv :=
  { nameStatus := ⟨0, "M\tserver.py", ""⟩, stat := ⟨0, "", ""⟩,
    fullDiff := ⟨1, "", "fatal: boom"⟩, log := ⟨0, "", ""⟩ }

/-- Fixture: a parsed events file holding a two-element list. -/
def eventsTwo : JVal := .arr [.str "e0", .str "e1"]

/-- Fixture: a parsed events file holding a three-element list. -/
def eventsThree : JVal := .arr [.str "e0", .str "e1", .str "e2"]

/-! Helper lemmas about the truncation loop and list search. -/

/-- The character-budget loop only ever keeps a prefix of its input
lines. -/
theorem takeLinesWithin_eq_take (b : Nat) (lines : List String) :
    ∀ c, ∃ n, Basic.takeLinesWithin b lines c = lines.take n := by
  induction lines with
  | nil => intro c; exact ⟨0, rfl⟩
  | cons line rest ih =>
    intro c
    unfold Basic.takeLinesWithin
    by_cases h : b < c + line.length + 1
    · exact ⟨0, by simp [h]⟩
    · obtain ⟨n, hn⟩ := ih (c + line.length + 1)
      exact ⟨n + 1, by simp [h, hn]⟩

/-- The kept lines' total cost stays within the remaining budget. -/
theorem sumPlus_takeLinesWithin (b : Nat) (lines : List String) :
    ∀ c, sumPlus (Basic.takeLinesWithin b lines c) ≤ b - c := by
  induction lines with
  | nil => intro c; simp [Basic.takeLinesWithin, sumPlus]
  | cons line rest ih =>
    intro c
    unfold Basic.takeLinesWithin
    by_cases h : b < c + line.length + 1
    · simp [h, sumPlus]
    · have hrec := ih (c + line.length + 1)
      simp only [h, if_false, sumPlus, List.map_cons, List.sum_cons]
      simp only [sumPlus] at hrec
      omega

/-- Length of the fold inside `String.intercalate` with a newline
separator. -/
theorem intercalate_go_length (as : List String) :
    ∀ acc : String,
      (String.intercalate.go acc "\n" as).length + 1 = acc.length + 1 + sumPlus as := by
  induction as with
  | nil => intro acc; simp [String.intercalate.go, sumPlus]
  | cons x xs ih =>
    intro acc
    have h := ih (acc ++ "\n" ++ x)
    simp only [String.intercalate.go, sumPlus, List.map_cons, List.sum_cons] at h ⊢
    simp only [String.length_append] at h
    rw [show ("\n").length = 1 from rfl] at h
    omega

/-- Length of `String.intercalate "\n"` on a nonempty line list. -/
theorem intercalate_newline_length (a : String) (as : List String) :
    (String.intercalate "\n" (a :: as)).length + 1 = sumPlus (a :: as) := by
  have h := intercalate_go_length as a
  simp only [String.intercalate, sumPlus, List.map_cons, List.sum_cons] at h ⊢
  omega

/-- The truncated content respects the character budget. -/
theorem truncateDiff_length_le (d : String) (h : 20000 < d.length) :
    (Basic.truncateDiff d).1.length ≤ 20000 := by
  have hb : Basic.max_diff_chars < d.length := h
  unfold Basic.truncateDiff
  rw [if_pos hb]
  cases hk : Basic.takeLinesWithin Basic.max_diff_chars (pySplit '\n' d) 0 with
  | nil =>
    show (String.intercalate "\n" []).length ≤ 20000
    simp [String.intercalate]
  | cons a as =>
    show (String.intercalate "\n" (a :: as)).length ≤ 20000
    have h1 := intercalate_newline_length a as
    have h2 := sumPlus_takeLinesWithin Basic.max_diff_chars (pySplit '\n' d) 0
    rw [hk] at h2
    have hmax : Basic.max_diff_chars = 20000 := rfl
    simp only [hmax] at h2
    omega

/-- `List.find?` returns the first element satisfying the predicate. -/
theorem find?_first {α : Type} (p : α → Bool) :
    ∀ (l : List α) (i : Nat) (hi : i < l.length),
      (∀ j (hj : j < l.length), j < i → p (l.get ⟨j, hj⟩) = false) →
      p (l.get ⟨i, hi⟩) = true →
      l.find? p = some (l.get ⟨i, hi⟩) := by
  intro l
  induction l with
  | nil => intro i hi; simp at hi
  | cons a t ih =>
    intro i hi hbefore hhit
    cases i with
    | zero =>
      simp only [List.get] at hhit
      simp [List.find?, hhit]
    | succ k =>
      have ha : p a = false := hbefore 0 (by simp) (by omega)
      have hrec := ih k (by simpa using hi)
        (fun j hj hjk => hbefore (j + 1) (by simpa using hj) (by omega))
        (by simpa using hhit)
      simpa [List.find?, ha] using hrec

/-- `List.take` is insensitive to bounds at or above the length. -/
theorem take_min {α : Type} (l : List α) (n : Nat) :
    l.take n = l.take (min n l.length) := by
  conv_lhs => rw [← List.take_length l]
  rw [List.take_take]

/-! Claim theorems. -/

/-- C1 (amended): the basic variant's operations degrade every failure to
a structured JSON result — in particular, with the templates directory
missing, `get_pr_templates` returns an `error` key and an empty template
list.  The extended variant's `get_pr_templates`, however, has no handler
and propagates the read exception (see the counterexample). -/
theorem claim1_error_containment (dir : Basic.TemplatesDir)
    (h : dir.dirExists = false) :
    (Basic.get_pr_templates dir).lookup "error" =
      some (.str "Templates directory not found: TEMPLATES_DIR")
  ∧ (Basic.get_pr_templates dir).lookup "templates" = some (.arr []) := by
  simp [Basic.get_pr_templates, h, JVal.lookup, List.find?]

/-- C1 witness: the containment theorem at the concrete missing
directory. -/
theorem claim1_witness :
    (Basic.get_pr_templates dirMissing).lookup "error" =
      some (.str "Templates directory not found: TEMPLATES_DIR")
  ∧ (Basic.get_pr_templates dirMissing).lookup "templates" = some (.arr []) :=
  claim1_error_containment dirMissing rfl

/-- C1 counterexample: with the templates directory missing, the extended
variant's `get_pr_templates` raises (the first `read_text` failure
escapes) instead of returning a JSON result with an `error` key. -/
theorem claim1_counterexample :
    Actions.get_pr_templates fsGone = .error "FileNotFoundError: bug.md" := rfl

/-- C4 (amended): in the basic variant, "bugfix", "fix" and "BUG" all
resolve to the bug template without fallback; in the extended variant,
"fix" and "BUG" map to the bug template but "bugfix" is not in
`TYPE_MAPPING` and silently gets the `feature.md` default (and no
fallback flag exists in its result). -/
theorem claim4_synonyms :
    Basic.resolveTemplate "bugfix" = ("bug.md", false)
  ∧ Basic.resolveTemplate "fix" = ("bug.md", false)
  ∧ Basic.resolveTemplate "BUG" = ("bug.md", false)
  ∧ Actions.lookupType "fix" = "bug.md"
  ∧ Actions.lookupType "BUG" = "bug.md"
  ∧ Actions.lookupType "bugfix" = "feature.md" :=
  ⟨rfl, rfl, rfl, rfl, rfl, rfl⟩

/-- C4 counterexample: the extended variant resolves "bugfix" to the
feature template while "fix" resolves to the bug template, so the three
synonyms do not all reach the same canonical bug template. -/
theorem claim4_counterexample :
    okLookup (Actions.suggest_template fsOk "s" "bugfix") "recommended_template" =
      some (.obj [("filename", .str "feature.md"), ("type", .str "Feature"),
                  ("content", .str "TPL")])
  ∧ okLookup (Actions.suggest_template fsOk "s" "fix") "recommended_template" =
      some (.obj [("filename", .str "bug.md"), ("type", .str "Bug Fix"),
                  ("content", .str "TPL")]) := ⟨rfl, rfl⟩

/-- C5 (amended): in the basic variant, a change type with no exact and
no substring match resolves to the `feature.md` default and the result
carries `fallback_used = true`; the extended variant also falls back to
the feature template but its result exposes no fallback indicator (see
the counterexample). -/
theorem claim5_fallback (fs : String → Basic.TemplateFile)
    (changes_summary change_type text : String)
    (hexact : (Basic.template_mappings.find? fun p =>
        p.1 == Basic.normalizeType change_type) = none)
    (hsub : (Basic.template_mappings.find? fun p =>
        Basic.substringMatch (Basic.normalizeType change_type) p.1) = none)
    (hfs : fs "feature.md" = .readable text) :
    Basic.resolveTemplate change_type = ("feature.md", true)
  ∧ (Basic.suggest_template fs changes_summary change_type).lookup "fallback_used" =
      some (.bool true) := by
  have h1 : Basic.resolveTemplate change_type = ("feature.md", true) := by
    simp [Basic.resolveTemplate, hexact, hsub]
  refine ⟨h1, ?_⟩
  unfold Basic.suggest_template
  rw [h1]
  simp [hfs, JVal.lookup, List.find?]

/-- C5 witness: the fallback theorem at "something-unrecognized". -/
theorem claim5_witness :
    Basic.resolveTemplate "something-unrecognized" = ("feature.md", true)
  ∧ (Basic.suggest_template tplOk "s" "something-unrecognized").lookup "fallback_used" =
      some (.bool true) :=
  claim5_fallback tplOk "s" "something-unrecognized" "TPL"
    (by decide) (by decide) rfl

/-- C5 counterexample: on the unmatched type, the extended variant's
result recommends the default feature template but contains no
`fallback_used` key at all. -/
theorem claim5_counterexample :
    okLookup (Actions.suggest_template fsOk "s" "something-unrecognized")
      "fallback_used" = none
  ∧ okLookup (Actions.suggest_template fsOk "s" "something-unrecognized")
      "recommended_template" =
      some (.obj [("filename", .str "feature.md"), ("type", .str "Feature"),
                  ("content", .str "TPL")]) := ⟨rfl, rfl⟩

/-- C6: when the exact lookup fails and position `i` holds the first
synonym key that substring-matches the normalized input, the basic
variant resolves to that key's template — the first match in declaration
order wins, deterministically. -/
theorem claim6_first_match (change_type : String) (i : Nat)
    (hi : i < Basic.template_mappings.length)
    (hexact : (Basic.template_mappings.find? fun p =>
        p.1 == Basic.normalizeType change_type) = none)
    (hbefore : ∀ j (hj : j < Basic.template_mappings.length), j < i →
        Basic.substringMatch (Basic.normalizeType change_type)
          (Basic.template_mappings.get ⟨j, hj⟩).1 = false)
    (hhit : Basic.substringMatch (Basic.normalizeType change_type)
        (Basic.template_mappings.get ⟨i, hi⟩).1 = true) :
    Basic.resolveTemplate change_type =
      ((Basic.template_mappings.get ⟨i, hi⟩).2, false) := by
  have hfind := find?_first
    (fun p => Basic.substringMatch (Basic.normalizeType change_type) p.1)
    Basic.template_mappings i hi hbefore hhit
  simp [Basic.resolveTemplate, hexact, hfind]

/-- C6 witness: "fixing" matches "bug" (no), "bugfix" (no), then "fix"
(yes, index 2), hence resolves to the bug template with no fallback. -/
theorem claim6_witness :
    Basic.resolveTemplate "fixing" = ("bug.md", false) := by
  have h := claim6_first_match "fixing" 2 (by decide) (by decide)
    (by decide) (by decide)
  exact h.trans (by decide)

/-- Characterization: the truncation flag is exactly the budget test. -/
theorem truncateDiff_flag (d : String) :
    (Basic.truncateDiff d).2.1 = decide (Basic.max_diff_chars < d.length) := by
  unfold Basic.truncateDiff
  by_cases h : Basic.max_diff_chars < d.length
  · rw [if_pos h]; simp [h]
  · rw [if_neg h]; simp [h]

/-- Characterization: the reported original size is present exactly when
the budget was exceeded. -/
theorem truncateDiff_osize (d : String) :
    (Basic.truncateDiff d).2.2 =
      if Basic.max_diff_chars < d.length then some d.length else none := by
  unfold Basic.truncateDiff
  by_cases h : Basic.max_diff_chars < d.length
  · rw [if_pos h, if_pos h]
  · rw [if_neg h, if_neg h]

/-- Characterization: a diff within the budget is passed through
byte-identically. -/
theorem truncateDiff_content_small (d : String)
    (h : ¬ Basic.max_diff_chars < d.length) :
    (Basic.truncateDiff d).1 = d := by
  unfold Basic.truncateDiff
  rw [if_neg h]

/-- C7: when the name-status subprocess succeeds with empty output (no
differences against the base reference), `analyze_file_changes` reports
an empty file list, a zero total and an empty diff string. -/
theorem claim7_no_changes (env : Basic.GitEnv) (include_diff : Bool)
    (hok : env.nameStatus.returncode = 0) (hout : env.nameStatus.stdout = "") :
    (Basic.analyze_file_changes env include_diff).lookup "files_changed" =
      some (.arr [])
  ∧ (Basic.analyze_file_changes env include_diff).lookup "total_files" =
      some (.num 0)
  ∧ (Basic.analyze_file_changes env include_diff).lookup "diff" =
      some (.str "") := by
  have hfc : Basic.parseChangedFiles env.nameStatus.stdout = [] := by
    rw [hout]; rfl
  simp [Basic.analyze_file_changes, hok, hfc, JVal.lookup, List.find?]

/-- C7 witness: the no-changes theorem at a concrete environment. -/
theorem claim7_witness :
    (Basic.analyze_file_changes envNoChanges true).lookup "files_changed" =
      some (.arr [])
  ∧ (Basic.analyze_file_changes envNoChanges true).lookup "total_files" =
      some (.num 0)
  ∧ (Basic.analyze_file_changes envNoChanges true).lookup "diff" =
      some (.str "") :=
  claim7_no_changes envNoChanges true rfl rfl

/-- C2: the character-budget truncation of the basic
`analyze_file_changes`.  Over the budget: the returned `diff` is never
longer than 20,000 characters, `diff_truncated` is true and
`original_diff_size` is the input's length.  At or under the budget:
`diff_truncated` is false and the `diff` is byte-identical to the
subprocess output. -/
theorem claim2_char_budget (env : Basic.GitEnv)
    (hok : env.nameStatus.returncode = 0)
    (hfiles : Basic.parseChangedFiles env.nameStatus.stdout ≠ [])
    (hdok : env.fullDiff.returncode = 0) :
    (20000 < env.fullDiff.stdout.length →
        (Basic.analyze_file_changes env true).lookup "diff_truncated" =
          some (.bool true)
      ∧ (Basic.analyze_file_changes env true).lookup "original_diff_size" =
          some (.num env.fullDiff.stdout.length)
      ∧ ∃ c, (Basic.analyze_file_changes env true).lookup "diff" = some (.str c)
           ∧ c.length ≤ 20000)
  ∧ (env.fullDiff.stdout.length ≤ 20000 →
        (Basic.analyze_file_changes env true).lookup "diff_truncated" =
          some (.bool false)
      ∧ (Basic.analyze_file_changes env true).lookup "diff" =
          some (.str env.fullDiff.stdout)) := by
  have hie : (Basic.parseChangedFiles env.nameStatus.stdout).isEmpty = false := by
    cases h : Basic.parseChangedFiles env.nameStatus.stdout with
    | nil => exact absurd h hfiles
    | cons a t => rfl
  constructor
  · intro hbig
    have hb : Basic.max_diff_chars < env.fullDiff.stdout.length := hbig
    have hflag : (Basic.truncateDiff env.fullDiff.stdout).2.1 = true := by
      rw [truncateDiff_flag]; exact decide_eq_true hb
    have hos : (Basic.truncateDiff env.fullDiff.stdout).2.2 =
        some env.fullDiff.stdout.length := by
      rw [truncateDiff_osize, if_pos hb]
    refine ⟨?_, ?_, ⟨(Basic.truncateDiff env.fullDiff.stdout).1, ?_,
      truncateDiff_length_le _ hbig⟩⟩ <;>
      simp [Basic.analyze_file_changes, hok, hie, hdok, hflag, hos,
            JVal.lookup, List.find?]
  · intro hsmall
    have hb : ¬ Basic.max_diff_chars < env.fullDiff.stdout.length := by
      simp [Basic.max_diff_chars]; omega
    have hflag : (Basic.truncateDiff env.fullDiff.stdout).2.1 = false := by
      rw [truncateDiff_flag]; exact decide_eq_false hb
    have hos : (Basic.truncateDiff env.fullDiff.stdout).2.2 = none := by
      rw [truncateDiff_osize, if_neg hb]
    have hc : (Basic.truncateDiff env.fullDiff.stdout).1 = env.fullDiff.stdout :=
      truncateDiff_content_small _ hb
    constructor <;>
      simp [Basic.analyze_file_changes, hok, hie, hdok, hflag, hos, hc,
            JVal.lookup, List.find?]

/-- C2 witness: the byte-identity branch at a concrete small diff. -/
theorem claim2_witness :
    (Basic.analyze_file_changes envSmall true).lookup "diff_truncated" =
      some (.bool false)
  ∧ (Basic.analyze_file_changes envSmall true).lookup "diff" =
      some (.str "abc") :=
  (claim2_char_budget envSmall rfl (by decide) rfl).2 (by decide)

/-- C9 (amended): in the basic variant, a failing full-diff subprocess is
surfaced: the result carries `diff_error` with the subprocess's stderr
and an empty `diff`, and nothing is raised.  The extended variant never
raises either, but it also never inspects the full-diff exit status: no
error field is produced there (see the counterexample). -/
theorem claim9_diff_error (env : Basic.GitEnv)
    (hok : env.nameStatus.returncode = 0)
    (hfiles : Basic.parseChangedFiles env.nameStatus.stdout ≠ [])
    (hfail : env.fullDiff.returncode ≠ 0) :
    (Basic.analyze_file_changes env true).lookup "diff_error" =
      some (.str env.fullDiff.stderr)
  ∧ (Basic.analyze_file_changes env true).lookup "diff" = some (.str "") := by
  have hie : (Basic.parseChangedFiles env.nameStatus.stdout).isEmpty = false := by
    cases h : Basic.parseChangedFiles env.nameStatus.stdout with
    | nil => exact absurd h hfiles
    | cons a t => rfl
  constructor <;>
    simp [Basic.analyze_file_changes, hok, hie, hfail, JVal.lookup, List.find?]

/-- C9 witness: the surfacing theorem at a concrete failing diff. -/
theorem claim9_witness :
    (Basic.analyze_file_changes envDiffFail true).lookup "diff_error" =
      some (.str "fatal: bad revision")
  ∧ (Basic.analyze_file_changes envDiffFail true).lookup "diff" =
      some (.str "") :=
  claim9_diff_error envDiffFail rfl (by decide) (by decide)

/-- C9 counterexample: in the extended variant, with the full-diff
subprocess exiting 1 and stderr "fatal: boom", the result contains no
`error` or `diff_error` field and no field mentioning the stderr text at
all — the error stream is silently dropped, not surfaced. -/
theorem claim9_counterexample :
    (Actions.analyze_file_changes "main" envDiffFailExt true 500).lookup
      "error" = none
  ∧ (Actions.analyze_file_changes "main" envDiffFailExt true 500).lookup
      "diff_error" = none
  ∧ objHasStrContaining
      (Actions.analyze_file_changes "main" envDiffFailExt true 500) "boom" = false
  ∧ (Actions.analyze_file_changes "main" envDiffFailExt true 500).lookup
      "diff" = some (.str "") := ⟨rfl, rfl, rfl, rfl⟩

/-- C3: both truncation policies keep only whole input lines — a prefix
of the line list, never a split line — and report a truncation flag plus
recovery information: the basic policy passes a short diff through
byte-identically and reports the original character size when it
truncates; the extended policy appends a marker built from the requested
bound and the total line count. -/
theorem claim3_whole_lines (diff : String) (limit : Int) :
    ( (20000 < diff.length →
        ∃ n, (Basic.truncateDiff diff).1 =
          String.intercalate "\n" ((pySplit '\n' diff).take n))
    ∧ (diff.length ≤ 20000 → (Basic.truncateDiff diff).1 = diff)
    ∧ (Basic.truncateDiff diff).2.1 = decide (20000 < diff.length)
    ∧ (20000 < diff.length →
        (Basic.truncateDiff diff).2.2 = some diff.length))
  ∧ ( (((pySplit '\n' diff).length : Int) ≤ limit →
        Actions.truncateDiffLines diff limit = (diff, false))
    ∧ (limit < ((pySplit '\n' diff).length : Int) →
        ∃ n, Actions.truncateDiffLines diff limit =
          (String.intercalate "\n" ((pySplit '\n' diff).take n) ++
             Actions.truncMarker limit (pySplit '\n' diff).length,
           true))) := by
  refine ⟨⟨?_, ?_, ?_, ?_⟩, ?_, ?_⟩
  · intro hbig
    obtain ⟨n, hn⟩ :=
      takeLinesWithin_eq_take Basic.max_diff_chars (pySplit '\n' diff) 0
    refine ⟨n, ?_⟩
    have hb : Basic.max_diff_chars < diff.length := hbig
    unfold Basic.truncateDiff
    rw [if_pos hb, hn]
  · intro hsmall
    exact truncateDiff_content_small diff (by simp [Basic.max_diff_chars]; omega)
  · exact truncateDiff_flag diff
  · intro hbig
    rw [truncateDiff_osize]
    exact if_pos hbig
  · intro hle
    unfold Actions.truncateDiffLines
    rw [if_neg (not_lt.mpr hle)]
  · intro hlt
    unfold Actions.truncateDiffLines
    rw [if_pos hlt]
    unfold Actions.pySlice
    by_cases h0 : 0 ≤ limit
    · exact ⟨limit.toNat, by rw [if_pos h0]⟩
    · exact ⟨(pySplit '\n' diff).length - (-limit).toNat, by rw [if_neg h0]⟩

/-- C3 witness: a two-line diff under both budgets passes through both
policies unchanged with the flags down. -/
theorem claim3_witness :
    (Basic.truncateDiff "a\nb").1 = "a\nb"
  ∧ Actions.truncateDiffLines "a\nb" 2 = ("a\nb", false) :=
  ⟨(claim3_whole_lines "a\nb" 2).1.2.1 (by decide),
   (claim3_whole_lines "a\nb" 2).2.1 (by decide)⟩

/-- C8 (amended): the basic variant's template listing is sorted by
template name regardless of the directory enumeration order.  The
extended variant's listing is the static table's declaration order,
which is not sorted by name (see the counterexample). -/
theorem claim8_sorted (dir : Basic.TemplatesDir) (h : dir.dirExists = true) :
    ∃ l, Basic.get_pr_templates dir = .arr l
       ∧ l.Pairwise fun a b => Basic.entryName a ≤ Basic.entryName b := by
  have htrans : ∀ (a b c : JVal), Basic.entryLe a b → Basic.entryLe b c →
      Basic.entryLe a c := by
    intro a b c hab hbc
    simp only [Basic.entryLe, decide_eq_true_eq] at hab hbc ⊢
    exact le_trans hab hbc
  have htotal : ∀ (a b : JVal), Basic.entryLe a b || Basic.entryLe b a := by
    intro a b
    simp only [Basic.entryLe, Bool.or_eq_true, decide_eq_true_eq]
    exact le_total _ _
  refine ⟨(dir.mdFiles.map fun p => Basic.templateEntry p.1 p.2).mergeSort
      Basic.entryLe, ?_, ?_⟩
  · simp [Basic.get_pr_templates, h]
  · exact (List.sorted_mergeSort htrans htotal _).imp fun hab => by
      simpa [Basic.entryLe, decide_eq_true_eq] using hab

/-- C8 witness: the sortedness theorem at a shuffled enumeration. -/
theorem claim8_witness :
    ∃ l, Basic.get_pr_templates dirShuffled = .arr l
       ∧ l.Pairwise fun a b => Basic.entryName a ≤ Basic.entryName b :=
  claim8_sorted dirShuffled rfl

/-- C8 counterexample: the extended variant returns the templates in
declaration order, with `feature.md` listed before `docs.md` — not
sorted by template name. -/
theorem claim8_counterexample :
    filenamesOf (Actions.get_pr_templates fsOk) =
      ["bug.md", "feature.md", "docs.md", "refactor.md", "test.md",
       "performance.md", "security.md"]
  ∧ ¬ (["bug.md", "feature.md", "docs.md", "refactor.md", "test.md",
        "performance.md", "security.md"].Pairwise
          fun a b : String => a ≤ b) := by
  refine ⟨rfl, ?_⟩
  have hdf : ("docs.md" : String) < "feature.md" := by
    rw [String.lt_iff_toList_lt]
    exact List.Lex.rel (by decide)
  intro h
  exact absurd ((List.pairwise_cons.mp (List.pairwise_cons.mp h).2).1
    "docs.md" (by simp)) (not_le.mpr hdf)

/-- C10 (amended): for a nonnegative limit, `get_recent_actions_events`
returns zero events with a zero total and no error field when the parsed
events value is not a list, and the first `min limit n` stored events (in
stored order, with matching `showing` and `total_events`) when it is a
list of length `n`.  A negative limit instead follows Python slicing and
drops the last `-limit` elements (see the counterexample). -/
theorem claim10_recent_events (file : Actions.EventsFile) (limit : Int)
    (hlim : 0 ≤ limit) :
    (∀ v, file = .parsed v → (∀ l, v ≠ .arr l) →
        (Actions.get_recent_actions_events file limit).lookup "events" =
          some (.arr [])
      ∧ (Actions.get_recent_actions_events file limit).lookup "total_events" =
          some (.num 0)
      ∧ (Actions.get_recent_actions_events file limit).lookup "error" = none)
  ∧ (∀ l, file = .parsed (.arr l) →
        (Actions.get_recent_actions_events file limit).lookup "events" =
          some (.arr (l.take (min limit.toNat l.length)))
      ∧ (Actions.get_recent_actions_events file limit).lookup "showing" =
          some (.num (min limit.toNat l.length))
      ∧ (Actions.get_recent_actions_events file limit).lookup "total_events" =
          some (.num l.length)) := by
  constructor
  · intro v hv hnl
    subst hv
    cases v with
    | arr l => exact absurd rfl (hnl l)
    | str s =>
      exact ⟨rfl, rfl, rfl⟩
    | num n => exact ⟨rfl, rfl, rfl⟩
    | bool b => exact ⟨rfl, rfl, rfl⟩
    | obj fields => exact ⟨rfl, rfl, rfl⟩
    | null => exact ⟨rfl, rfl, rfl⟩
  · intro l hv
    subst hv
    have hslice : Actions.pySlice l limit = l.take (min limit.toNat l.length) := by
      unfold Actions.pySlice
      rw [if_pos hlim, ← take_min]
    have hlen : (Actions.pySlice l limit).length = min limit.toNat l.length := by
      rw [hslice, List.length_take, Nat.min_assoc, Nat.min_self]
    refine ⟨?_, ?_, ?_⟩ <;>
      simp [Actions.get_recent_actions_events, hslice, hlen,
            JVal.lookup, List.find?]

/-- C10 witness: three stored events, limit 2. -/
theorem claim10_witness :
    (Actions.get_recent_actions_events (.parsed eventsThree) 2).lookup "events" =
      some (.arr [.str "e0", .str "e1"])
  ∧ (Actions.get_recent_actions_events (.parsed eventsThree) 2).lookup "showing" =
      some (.num 2)
  ∧ (Actions.get_recent_actions_events (.parsed eventsThree) 2).lookup
      "total_events" = some (.num 3) := by
  have h := (claim10_recent_events (.parsed eventsThree) 2 (by decide)).2
    [.str "e0", .str "e1", .str "e2"] rfl
  exact h

/-- C10 counterexample: with two stored events and limit `-1`, the code
returns the first event (Python's slice drops the last one), while the
claimed "first `min limit n` elements" reading would give the empty
list. -/
theorem claim10_counterexample :
    (Actions.get_recent_actions_events (.parsed eventsTwo) (-1)).lookup "events" =
      some (.arr [.str "e0"])
  ∧ [JVal.str "e0"] ≠
      ([JVal.str "e0", .str "e1"].take (min (-1 : Int) 2).toNat) := by
  refine ⟨rfl, ?_⟩
  intro h
  exact List.cons_ne_nil _ _ h
